import Mathlib

/-!
Verification of the rule-based video compatibility detector and two-stage
repair engine (`video_detector.py`, `video_conversion.py`).

The Python code is shallowly embedded: the ffprobe JSON output is a
`ProbeData` value, a subprocess invocation of ffprobe is a `ProbeExec`
(either a successful run delivering data, or a failed/unparsable run),
and the stateful workflows `detect_video` / `fix_video` are pure
functions of an explicit environment describing the behaviour of the
external world (tool availability, subprocess exit codes, filesystem
outcomes).  Machine floats are modelled as rationals; numeric-string
parsing models Python `int()` / `float()` on plain decimal literals,
which is the shape ffprobe emits.
-/

namespace VD

/-- All characters are ASCII digits. -/
def allDigits (l : List Char) : Bool := l.all (fun c => c.isDigit)

/-- Numeric value of a digit string (most significant first). -/
def digitsVal (l : List Char) : Nat := l.foldl (fun a c => a * 10 + (c.toNat - 48)) 0

/-- Split a character list at every occurrence of the separator, like
Python `str.split(sep)` with a one-character separator. -/
def splitOnChar (c : Char) : List Char → List (List Char)
  | [] => [[]]
  | x :: xs =>
      match splitOnChar c xs with
      | [] => [[]]
      | h :: t => if x = c then [] :: h :: t else (x :: h) :: t

/-- Strip an optional leading sign; returns (isNegative, rest). -/
def signSplit : List Char → Bool × List Char
  | '-' :: t => (true, t)
  | '+' :: t => (false, t)
  | l => (false, l)

/-- Models Python `int(s)` on an optionally signed digit string:
`none` when Python would raise `ValueError`. -/
def parseIntChars? (l : List Char) : Option Int :=
  let p := signSplit l
  if p.2 ≠ [] ∧ allDigits p.2 then
    some (if p.1 then -(digitsVal p.2 : Int) else (digitsVal p.2 : Int))
  else none

/-- `parseIntChars?` on a string. -/
def parseInt? (s : String) : Option Int := parseIntChars? s.data

/-- Structural front end of Python `float(s)` on a plain decimal literal
`[sign] digits [ "." digits ]`: returns (isNegative, integer part,
fraction digits value, fraction length), or `none` when Python would
raise `ValueError`. -/
def parseFloatParts (s : String) : Option (Bool × Nat × Nat × Nat) :=
  let p := signSplit s.data
  match splitOnChar '.' p.2 with
  | [ip] => if ip ≠ [] ∧ allDigits ip then some (p.1, digitsVal ip, 0, 0) else none
  | [ip, fp] =>
      if (ip ≠ [] ∨ fp ≠ []) ∧ allDigits ip ∧ allDigits fp then
        some (p.1, digitsVal ip, digitsVal fp, fp.length)
      else none
  | _ => none

/-- Exact rational value of the decimal parts. -/
def partsToRat : Bool × Nat × Nat × Nat → ℚ
  | (neg, ip, fp, k) =>
      let q : ℚ := (ip : ℚ) + (fp : ℚ) / ((10 : ℚ) ^ k)
      if neg then -q else q

/-- Models Python `float(s)` on the plain decimal literals ffprobe emits
for durations and bitrates: `none` when Python would raise. -/
def parseFloat? (s : String) : Option ℚ := (parseFloatParts s).map partsToRat

/-- Python `round(x, 2)` as used on the frame-rate quotient (modelled on
exact rationals; `round` rounds halves up where Python's float rounding
is half-even, a difference only visible at exact two-decimal halves,
which the quotients in scope never hit exactly in binary floating
point either). -/
def round2 (q : ℚ) : ℚ := ((round (q * 100) : ℤ) : ℚ) / 100

/-- ASCII lower-casing, Python `str.lower()` on the codec identifiers in
scope. -/
def lowerStr (s : String) : String := String.mk (s.data.map Char.toLower)

/-- ASCII upper-casing, Python `str.upper()`. -/
def upperStr (s : String) : String := String.mk (s.data.map Char.toUpper)

/-- One entry of a stream's `side_data_list`. -/
structure SideData where
  side_data_type : Option String := none
  deriving Repr, DecidableEq

/-- One stream object of the ffprobe JSON.  A field holds `none` exactly
when the corresponding key is absent from the JSON object. -/
structure Stream where
  codec_type : Option String := none
  width : Option Int := none
  height : Option Int := none
  codec_name : Option String := none
  pix_fmt : Option String := none
  color_space : Option String := none
  r_frame_rate : Option String := none
  bit_rate : Option String := none
  duration : Option String := none
  side_data_list : List SideData := []
  deriving Repr, DecidableEq

/-- The container-level `format` object of the ffprobe JSON. -/
structure FormatInfo where
  duration : Option String := none
  deriving Repr, DecidableEq

/-- The parsed ffprobe JSON document: stream list plus format object. -/
structure ProbeData where
  streams : List Stream := []
  format : FormatInfo := {}
  deriving Repr, DecidableEq

/-- Outcome of one ffprobe subprocess invocation: `fail` covers a nonzero
exit status and unparsable standard output alike. -/
inductive ProbeExec where
  | fail
  | ok (d : ProbeData)
  deriving Repr, DecidableEq

/-- The `info` dictionary built by `VideoDetector._get_video_info`.
A field holds `none` when the Python dict leaves the key absent or maps it
to `None`; the two are indistinguishable to every consumer in the code.
Bitrates are kept as kbps rationals (the source renders them as
`"{:.0f} kbps"` strings; only set-versus-unset is consumed downstream). -/
structure MediaInfo where
  width : Option Int := none
  height : Option Int := none
  codec : Option String := none
  pixel_format : Option String := none
  color_space : Option String := none
  fps : Option ℚ := none
  video_bitrate : Option ℚ := none
  audio_codec : Option String := none
  audio_bitrate : Option ℚ := none
  duration : Option ℚ := none
  deriving Repr, DecidableEq

/-- First stream of the given `codec_type`, as selected by the
`for stream in data.get("streams", [])` loop of `_get_video_info`. -/
def firstStreamOfType (d : ProbeData) (t : String) : Option Stream :=
  d.streams.find? (fun s => s.codec_type = some t)

/-- Frame-rate field computation of `_get_video_info` after the
`num, denom` split: division is guarded by `denom != 0`, so a zero
denominator yields an unset frame rate and no division is performed. -/
def fpsFromRat (n d : Int) : Option ℚ :=
  if d ≠ 0 then some (round2 ((n : ℚ) / (d : ℚ))) else none

/-- Frame-rate parsing of `_get_video_info` from the `r_frame_rate`
string (the argument is `video_stream.get("r_frame_rate", "")`).
`Except.error` models the uncaught `ValueError` that
`num, denom = map(int, fps_str.split("/"))` raises on malformed input. -/
def parseFps (s : String) : Except String (Option ℚ) :=
  if s.data ≠ [] ∧ 2 ≤ (splitOnChar '/' s.data).length then
    match splitOnChar '/' s.data with
    | [a, b] =>
        match parseIntChars? a, parseIntChars? b with
        | some n, some d => .ok (fpsFromRat n d)
        | _, _ => .error "获取视频信息时出错: invalid literal for int()"
    | _ => .error "获取视频信息时出错: too many values to unpack"
  else .ok none

/-- kbps bitrate from a stream's `bit_rate` string:
`int(stream["bit_rate"]) / 1000`, with parse failures swallowed. -/
def bitrateKbps (s : Option String) : Option ℚ :=
  s.bind (fun str => (parseInt? str).map (fun n => (n : ℚ) / 1000))

/-- Field extraction of `VideoDetector._get_video_info` from parsed
ffprobe JSON.  `Except.error` models an exception escaping the helper
(only the frame-rate parse can raise here). -/
def extractMediaInfo (d : ProbeData) : Except String MediaInfo :=
  let afterVideo : Except String MediaInfo :=
    match firstStreamOfType d "video" with
    | none => .ok {}
    | some vs =>
        match parseFps (vs.r_frame_rate.getD "") with
        | .error e => .error e
        | .ok fps? =>
            .ok { width := some (vs.width.getD 0)
                  , height := some (vs.height.getD 0)
                  , codec := vs.codec_name
                  , pixel_format := vs.pix_fmt
                  , color_space := vs.color_space
                  , fps := fps?
                  , video_bitrate := bitrateKbps vs.bit_rate }
  match afterVideo with
  | .error e => .error e
  | .ok m1 =>
      let m2 :=
        match firstStreamOfType d "audio" with
        | none => m1
        | some au => { m1 with audio_codec := au.codec_name
                               audio_bitrate := bitrateKbps au.bit_rate }
      .ok { m2 with duration := d.format.duration.bind parseFloat? }

/-- Whether the `info` dictionary `_get_video_info` builds would be
non-empty, i.e. Python-truthy: a video stream, an audio stream, or a
parseable container duration each adds at least one key. -/
def infoNonempty (d : ProbeData) : Bool :=
  (firstStreamOfType d "video").isSome || (firstStreamOfType d "audio").isSome
    || (d.format.duration.bind parseFloatParts).isSome

/-- `VideoDetector._get_video_info`:  `.ok none` covers both the
`has_ffprobe == False` early return of `None` and an empty result dict
(the two are indistinguishable to every caller: all of them only test
truthiness).  `.error` models a raised exception (ffprobe nonzero exit,
unparsable JSON, or a malformed frame-rate string). -/
def get_video_info (hasFFprobe : Bool) (p : ProbeExec) : Except String (Option MediaInfo) :=
  if hasFFprobe then
    match p with
    | .fail => .error "获取视频信息时出错: FFprobe执行失败"
    | .ok d =>
        match extractMediaInfo d with
        | .error e => .error e
        | .ok m => .ok (if infoNonempty d then some m else none)
  else .ok none

/-- The `{"video_issues": [...], "audio_issues": [...]}` result dict of
the analyzers. -/
structure IssueList where
  video_issues : List String := []
  audio_issues : List String := []
  deriving Repr, DecidableEq

/-- Video-issue rules of `_identify_problematic_streams`, applied to one
stream of the `-show_data` probe output: codec blacklist, pixel-format
whitelist (only when present), color-space whitelist (only when
present), and one issue per "Ambient viewing environment" side-data
entry.  All rules are evaluated; every match is reported. -/
def streamVideoIssues (s : Stream) : List String :=
  if s.codec_type = some "video" then
    let codec := lowerStr (s.codec_name.getD "")
    let l1 :=
      if ["hevc", "h265", "av1", "vp9"].contains codec then
        ["视频使用 " ++ upperStr codec ++ " 编码，可能不被MoviePy兼容"]
      else []
    let pf := lowerStr (s.pix_fmt.getD "")
    let l2 :=
      if pf ≠ "" ∧ ¬ ["yuv420p", "yuvj420p", "rgb24", "bgr24"].contains pf then
        ["视频使用 " ++ pf ++ " 像素格式，可能不被MoviePy兼容"]
      else []
    let cs := lowerStr (s.color_space.getD "")
    let l3 :=
      if cs ≠ "" ∧ ¬ ["bt709", "bt601", "bt470bg", "smpte170m"].contains cs then
        ["视频使用 " ++ cs ++ " 色彩空间，可能不被MoviePy兼容"]
      else []
    let l4 := s.side_data_list.filterMap (fun it =>
      if it.side_data_type = some "Ambient viewing environment" then
        some "视频包含环境观看环境元数据，可能不被MoviePy兼容"
      else none)
    l1 ++ l2 ++ l3 ++ l4
  else []

/-- Audio-issue rule of `_identify_problematic_streams`: any audio
stream whose (lower-cased, absent-defaults-to-empty) codec name is not
in the allow list contributes one issue. -/
def streamAudioIssues (s : Stream) : List String :=
  if s.codec_type = some "audio" then
    let codec := lowerStr (s.codec_name.getD "")
    if ["aac", "mp3", "pcm_s16le"].contains codec then []
    else ["音频使用 " ++ codec ++ " 编码，可能不被MoviePy兼容"]
  else []

/-- The per-stream scan loop of `_identify_problematic_streams`: every
stream of the probe output is visited, in order, and its issues are
appended to the respective list. -/
def scanStreams (d : ProbeData) : IssueList :=
  { video_issues := (d.streams.map streamVideoIssues).flatten
    , audio_issues := (d.streams.map streamAudioIssues).flatten }

/-- `VideoDetector._identify_problematic_streams`.  The method performs
two ffprobe invocations: `p1` backs its `_get_video_info` call and `p2`
the `-show_data` probe whose JSON is scanned.  Every failure path —
missing ffprobe, a raised `_get_video_info` exception, an empty info
dict, a nonzero exit or unparsable output of the second probe — returns
the same empty `IssueList`; the caller receives no probe-failure
signal of any kind. -/
def identify_problematic_streams (hasFFprobe : Bool) (p1 p2 : ProbeExec) : IssueList :=
  if hasFFprobe then
    match get_video_info hasFFprobe p1 with
    | .error _ => {}
    | .ok none => {}
    | .ok (some _) =>
        match p2 with
        | .fail => {}
        | .ok d => scanStreams d
  else {}

/-- Video-issue rules of `VideoConverter.identify_problematic_streams`
(`video_conversion.py`): same codec/pixel-format/color-space rules, but
no side-data rule. -/
def convStreamVideoIssues (s : Stream) : List String :=
  if s.codec_type = some "video" then
    let codec := lowerStr (s.codec_name.getD "")
    let l1 :=
      if ["hevc", "h265", "av1", "vp9"].contains codec then
        ["视频使用 " ++ upperStr codec ++ " 编码，可能不被MoviePy兼容"]
      else []
    let pf := lowerStr (s.pix_fmt.getD "")
    let l2 :=
      if pf ≠ "" ∧ ¬ ["yuv420p", "yuvj420p", "rgb24", "bgr24"].contains pf then
        ["视频使用 " ++ pf ++ " 像素格式，可能不被MoviePy兼容"]
      else []
    let cs := lowerStr (s.color_space.getD "")
    let l3 :=
      if cs ≠ "" ∧ ¬ ["bt709", "bt601", "bt470bg", "smpte170m"].contains cs then
        ["视频使用 " ++ cs ++ " 色彩空间，可能不被MoviePy兼容"]
      else []
    l1 ++ l2 ++ l3
  else []

/-- `VideoConverter.identify_problematic_streams`: a single probe, whose
raw JSON is scanned directly (audio rule identical to the detector's);
a failed probe again yields the empty result with no signal. -/
def converter_identify_problematic_streams (hasFFprobe : Bool) (p : ProbeExec) : IssueList :=
  if hasFFprobe then
    match p with
    | .fail => {}
    | .ok d =>
        { video_issues := (d.streams.map convStreamVideoIssues).flatten
          , audio_issues := (d.streams.map streamAudioIssues).flatten }
  else {}

/-- The lifecycle status strings of `VideoInfo`
(未知 / 正常 / 错误 / 已修复 / 处理中). -/
inductive VStatus where
  | unknown
  | ok
  | error
  | fixed
  | processing
  deriving Repr, DecidableEq

/-- The per-file `VideoInfo` record (constructor state: everything unset,
status 未知). -/
structure VideoInfo where
  filepath : String
  filesize : Nat
  status : VStatus := .unknown
  width : Option Int := none
  height : Option Int := none
  duration : Option ℚ := none
  fps : Option ℚ := none
  codec : Option String := none
  video_bitrate : Option ℚ := none
  audio_codec : Option String := none
  audio_bitrate : Option ℚ := none
  error_message : Option String := none
  fixed_path : Option String := none
  fixed_time : Option String := none
  conversion_params : Option String := none
  pixel_format : Option String := none
  color_space : Option String := none
  issues : List String := []
  deriving Repr, DecidableEq

/-- The `for key, value in video_info.items(): setattr(info, key, value)`
loop of `detect_video`: every key the info dict can carry names an
existing attribute, so the effect is a field-wise overwrite. -/
def applyMedia (v : VideoInfo) (m : MediaInfo) : VideoInfo :=
  { v with width := m.width, height := m.height, codec := m.codec,
           pixel_format := m.pixel_format, color_space := m.color_space,
           fps := m.fps, video_bitrate := m.video_bitrate,
           audio_codec := m.audio_codec, audio_bitrate := m.audio_bitrate,
           duration := m.duration }

/-- External behaviour backing one `detect_video` call: file existence,
ffprobe availability, and the three ffprobe invocations it can make
(its own `_get_video_info`, then the two inside
`_identify_problematic_streams`). -/
structure DetectEnv where
  fileExists : Bool
  hasFFprobe : Bool
  pDetect : ProbeExec
  pIdent1 : ProbeExec
  pIdent2 : ProbeExec
  deriving Repr, DecidableEq

/-- `VideoDetector.detect_video`.  Returns `none` when the file does not
exist.  The `if issues:` test in the source checks a dict that always
has its two keys and is therefore always truthy, so the embedded code
goes straight to the inner emptiness test. -/
def detect_video (env : DetectEnv) (path : String) (size : Nat) : Option VideoInfo :=
  if env.fileExists then
    let base : VideoInfo := { filepath := path, filesize := size }
    some <|
      if env.hasFFprobe then
        match get_video_info env.hasFFprobe env.pDetect with
        | .error e =>
            { base with status := .error, error_message := some ("检测失败: " ++ e) }
        | .ok none =>
            { base with status := .error, error_message := some "无法获取视频信息" }
        | .ok (some m) =>
            let info1 := applyMedia base m
            let il := identify_problematic_streams env.hasFFprobe env.pIdent1 env.pIdent2
            let info2 := { info1 with issues := il.video_issues ++ il.audio_issues }
            if il.video_issues ≠ [] ∨ il.audio_issues ≠ [] then
              { info2 with status := .error, error_message := some "检测到兼容性问题" }
            else
              { info2 with status := .ok }
      else
        { base with status := .error, error_message := some "检测工具不可用，请安装FFprobe" }
  else none

/-- One quality tier of the `quality_settings` table in `fix_video`. -/
structure QSettings where
  preset : String
  crf : String
  video_bitrate : String
  deriving Repr, DecidableEq

/-- `quality_settings.get(quality, quality_settings["medium"])`: the
three tiers, any unknown quality string falling back to medium. -/
def qualitySettings (q : String) : QSettings :=
  if q = "high" then ⟨"slow", "18", "0"⟩
  else if q = "medium" then ⟨"medium", "23", "0"⟩
  else if q = "low" then ⟨"ultrafast", "28", "0"⟩
  else ⟨"medium", "23", "0"⟩

/-- `os.path.basename` on the forward-slash paths in scope. -/
def basename (p : String) : String :=
  match (p.splitOn "/").getLast? with
  | some b => b
  | none => p

/-- External behaviour backing one `fix_video` call: tool availability,
the fresh `tempfile.mkstemp` names, directory/probe/subprocess/
filesystem outcomes, and the wall-clock string used for `fixed_time`. -/
structure FixEnv where
  hasFFmpeg : Bool
  hasFFprobe : Bool
  /-- mkstemp name of the temp output (`temp_fix_*.mp4`). -/
  tempName : String
  /-- mkstemp name of the raw intermediate (`raw_temp_*.yuv`). -/
  rawName : String
  /-- output directory is non-empty and missing, so `makedirs` runs. -/
  needDir : Bool
  mkdirOk : Bool
  /-- ffprobe run backing the `_get_video_info(original_path)` call. -/
  probeOrig : ProbeExec
  /-- stage-1 `subprocess.Popen` spawns without raising. -/
  spawn1Ok : Bool
  stage1Exit : Int
  spawn2Ok : Bool
  stage2Exit : Int
  /-- `os.path.exists(temp_output_path)` after stage 2. -/
  outExists : Bool
  outSize : Nat
  /-- `os.remove(raw_temp_path)` succeeds (explicit cleanup and finally). -/
  rawRemoveOk : Bool
  /-- ffprobe runs backing the post-encode re-verification. -/
  reverify1 : ProbeExec
  reverify2 : ProbeExec
  /-- original file exists when the replace step runs. -/
  origExists : Bool
  origRemoveOk : Bool
  renameOk : Bool
  moveOk : Bool
  timeStr : String
  deriving Repr, DecidableEq

/-- How a `fix_video` call ends: a `(success, message)` return, or an
exception escaping the function (possible only from the
`_get_video_info` call at line 555, which sits before the
`try/finally`). -/
inductive FixOutcome where
  | returned (success : Bool) (message : String)
  | raised (message : String)
  deriving Repr, DecidableEq

/-- Observable post-state of one `fix_video` call: outcome, the record
(mutated only on success), the `_temp_files` registry, which external
actions ran, and which files exist afterwards. -/
structure FixResult where
  outcome : FixOutcome
  record : VideoInfo
  temps : List String
  /-- `_get_video_info(original_path)` was invoked. -/
  probedOriginal : Bool := false
  rawCreated : Bool := false
  /-- the mkstemp temp output was created (only when `output_path is None`). -/
  tempOutCreated : Bool := false
  stage1Run : Bool := false
  stage2Run : Bool := false
  /-- the replace-original block was entered. -/
  replaceAttempted : Bool := false
  originalDeleted : Bool := false
  originalRenamed : Bool := false
  /-- `shutil.move(temp_output_path, output_path)` completed. -/
  movedIntoPlace : Bool := false
  /-- a file exists at the raw intermediate path. -/
  rawOnDisk : Bool := false
  /-- a file exists at the temp output path. -/
  tempOutOnDisk : Bool := false
  backupOnDisk : Bool := false
  /-- result of the advisory re-verification (logged only). -/
  reverifyIssues : IssueList := {}
  deriving Repr, DecidableEq

/-- The raw-intermediate cleanup step (`finally` block, and the identical
explicit cleanup after stage 2): if the raw file exists, remove it and
deregister it; a failing `os.remove` is swallowed and leaves the file
both on disk and registered.  Returns (still on disk, new registry). -/
def rawCleanup (env : FixEnv) (rawOnDisk : Bool) (temps : List String) :
    Bool × List String :=
  if rawOnDisk then
    if env.rawRemoveOk then (false, temps.erase env.rawName) else (true, temps)
  else (false, temps)

/-- `VideoDetector.fix_video`.  `temps0` is the `_temp_files` registry on
entry, `outputPath?` the `output_path` argument (`none` means "replace
the original via a temp file"), `quality` the quality string.  The
`delete_original` parameter of the source is ignored by its body and so
not modelled.  The advisory re-verification and the final informational
probe of the fixed file only feed the log, so their results are stored
but otherwise unused. -/
def fix_video (env : FixEnv) (temps0 : List String) (info : VideoInfo)
    (outputPath? : Option String) (quality : String) : FixResult :=
  if env.hasFFmpeg = false then
    { outcome := .returned false "未找到FFmpeg，无法修复视频", record := info, temps := temps0 }
  else if info.status = VStatus.ok then
    { outcome := .returned true "视频已兼容，无需修复", record := info, temps := temps0 }
  else
    let usingTemp := outputPath?.isNone
    let tempOutPath := outputPath?.getD env.tempName
    let outputPath := outputPath?.getD info.filepath
    let temps1 := if usingTemp then temps0 ++ [env.tempName] else temps0
    -- after mkstemp, the (empty) temp output file exists on disk
    if env.needDir ∧ env.mkdirOk = false then
      { outcome := .returned false "无法创建输出目录", record := info, temps := temps1,
        tempOutCreated := usingTemp, tempOutOnDisk := usingTemp }
    else
      let settings := qualitySettings quality
      match get_video_info env.hasFFprobe env.probeOrig with
      | .error e =>
          -- raised before the try/finally: the exception escapes fix_video
          { outcome := .raised e, record := info, temps := temps1,
            probedOriginal := true, tempOutCreated := usingTemp,
            tempOutOnDisk := usingTemp }
      | .ok origInfo? =>
          -- fallback encode parameters 1920x1080 @ 30 when undeterminable
          let _w : Int := (origInfo?.bind (fun m => m.width)).getD 1920
          let _h : Int := (origInfo?.bind (fun m => m.height)).getD 1080
          let _fr : ℚ := (origInfo?.bind (fun m => m.fps)).getD 30
          let temps2 := temps1 ++ [env.rawName]
          -- try block: stage 1
          if env.spawn1Ok = false then
            let c := rawCleanup env true temps2
            { outcome := .returned false "转换错误: 无法启动转换进程", record := info,
              temps := c.2, probedOriginal := true, rawCreated := true,
              rawOnDisk := c.1, tempOutCreated := usingTemp, tempOutOnDisk := usingTemp }
          else if env.stage1Exit ≠ 0 then
            let c := rawCleanup env true temps2
            { outcome := .returned false ("阶段1解码失败，返回代码: " ++ toString env.stage1Exit),
              record := info, temps := c.2, probedOriginal := true, rawCreated := true,
              stage1Run := true, rawOnDisk := c.1,
              tempOutCreated := usingTemp, tempOutOnDisk := usingTemp }
          else if env.spawn2Ok = false then
            let c := rawCleanup env true temps2
            { outcome := .returned false "转换错误: 无法启动转换进程", record := info,
              temps := c.2, probedOriginal := true, rawCreated := true, stage1Run := true,
              rawOnDisk := c.1, tempOutCreated := usingTemp, tempOutOnDisk := usingTemp }
          else if env.stage2Exit ≠ 0 then
            let c := rawCleanup env true temps2
            { outcome := .returned false ("阶段2编码失败，返回代码: " ++ toString env.stage2Exit),
              record := info, temps := c.2, probedOriginal := true, rawCreated := true,
              stage1Run := true, stage2Run := true, rawOnDisk := c.1,
              tempOutCreated := usingTemp, tempOutOnDisk := env.outExists }
          else if env.outExists = false ∨ env.outSize = 0 then
            let c := rawCleanup env true temps2
            { outcome := .returned false "转换失败: 输出文件未创建或为空",
              record := info, temps := c.2, probedOriginal := true, rawCreated := true,
              stage1Run := true, stage2Run := true, rawOnDisk := c.1,
              tempOutCreated := usingTemp, tempOutOnDisk := env.outExists }
          else
            -- explicit raw cleanup (lines 665-673), then advisory re-verify
            let c1 := rawCleanup env true temps2
            let rv := identify_problematic_streams env.hasFFprobe env.reverify1 env.reverify2
            if tempOutPath ≠ outputPath then
              -- replace-original block
              if env.origExists ∧ env.origRemoveOk = false ∧ env.renameOk = false then
                -- both delete and rename raised: caught at line 707
                let c2 := rawCleanup env c1.1 c1.2
                { outcome := .returned false "替换原文件时出错: 无法删除或重命名原文件",
                  record := info, temps := c2.2, probedOriginal := true, rawCreated := true,
                  stage1Run := true, stage2Run := true, replaceAttempted := true,
                  rawOnDisk := c2.1, tempOutCreated := usingTemp, tempOutOnDisk := true,
                  reverifyIssues := rv }
              else
                let deleted := env.origExists && env.origRemoveOk
                let renamed := env.origExists && !env.origRemoveOk && env.renameOk
                if env.moveOk = false then
                  -- shutil.move raised: caught at line 707
                  let c2 := rawCleanup env c1.1 c1.2
                  { outcome := .returned false "替换原文件时出错: 移动临时文件失败",
                    record := info, temps := c2.2, probedOriginal := true, rawCreated := true,
                    stage1Run := true, stage2Run := true, replaceAttempted := true,
                    originalDeleted := deleted, originalRenamed := renamed,
                    rawOnDisk := c2.1, tempOutCreated := usingTemp, tempOutOnDisk := true,
                    backupOnDisk := renamed, reverifyIssues := rv }
                else
                  let temps3 := c1.2.erase tempOutPath
                  let record1 : VideoInfo :=
                    { info with status := .fixed, fixed_path := some outputPath,
                                fixed_time := some env.timeStr,
                                conversion_params := some ("质量: " ++ quality ++ ", 预设: "
                                  ++ settings.preset ++ ", CRF: " ++ settings.crf
                                  ++ ", 两阶段完全重编码") }
                  let c2 := rawCleanup env c1.1 temps3
                  { outcome := .returned true ("视频修复成功: " ++ basename outputPath),
                    record := record1, temps := c2.2, probedOriginal := true,
                    rawCreated := true, stage1Run := true, stage2Run := true,
                    replaceAttempted := true, originalDeleted := deleted,
                    originalRenamed := renamed, movedIntoPlace := true,
                    rawOnDisk := c2.1, tempOutCreated := usingTemp, tempOutOnDisk := false,
                    backupOnDisk := renamed, reverifyIssues := rv }
            else
              -- output path was given: the encode already wrote the final file
              let record1 : VideoInfo :=
                { info with status := .fixed, fixed_path := some outputPath,
                            fixed_time := some env.timeStr,
                            conversion_params := some ("质量: " ++ quality ++ ", 预设: "
                              ++ settings.preset ++ ", CRF: " ++ settings.crf
                              ++ ", 两阶段完全重编码") }
              let c2 := rawCleanup env c1.1 c1.2
              { outcome := .returned true ("视频修复成功: " ++ basename outputPath),
                record := record1, temps := c2.2, probedOriginal := true,
                rawCreated := true, stage1Run := true, stage2Run := true,
                rawOnDisk := c2.1, tempOutCreated := usingTemp, tempOutOnDisk := true,
                reverifyIssues := rv }

/-- `VideoDetector.cleanup`: the registry is emptied unconditionally. -/
def cleanup_registry (_temps : List String) : List String := []

/-- Whether a given file survives `VideoDetector.cleanup`: a file on disk
is removed exactly when it is registered and its `os.remove` succeeds
(failures are swallowed). -/
def cleanupLeavesFile (temps : List String) (name : String)
    (onDisk removeOk : Bool) : Bool :=
  if onDisk ∧ temps.contains name ∧ removeOk then false else onDisk

/-- The stream-level duration scan of `VideoConverter.create_preview`
(`video_conversion.py` lines 446-453): every video stream with a
parseable `duration` string overwrites the running value, which starts
at 0 (so the last parseable video-stream duration wins); parse failures
are swallowed. -/
def preview_stream_duration (d : ProbeData) : ℚ :=
  d.streams.foldl (fun acc s =>
    if s.codec_type = some "video" then
      match s.duration with
      | some str =>
          match parseFloat? str with
          | some q => q
          | none => acc
      | none => acc
    else acc) 0

/-- The duration derivation of `VideoConverter.create_preview`: the
stream-level value is used when truthy (non-zero); otherwise the
container-level `format` duration is tried, any failure leaving 0. -/
def preview_duration (d : ProbeData) : ℚ :=
  let vd := preview_stream_duration d
  if vd = 0 then
    match d.format.duration with
    | some str => (parseFloat? str).getD 0
    | none => 0
  else vd

/-- `create_preview` aborts with 无法确定视频时长 when the derived
duration is not positive; otherwise it proceeds with the value. -/
def create_preview_duration (d : ProbeData) : Option ℚ :=
  let vd := preview_duration d
  if vd ≤ 0 then none else some vd

/-- All optional per-stream fields the analyzer consults are absent from
the probe output: no codec name, no pixel format, no color space, no
side data. -/
def optionalFieldsAbsent (s : Stream) : Prop :=
  s.codec_name = none ∧ s.pix_fmt = none ∧ s.color_space = none ∧ s.side_data_list = []

instance (s : Stream) : Decidable (optionalFieldsAbsent s) := by
  unfold optionalFieldsAbsent
  infer_instance

/-! Concrete probe data and environments used by the counterexamples and
witnesses below. -/

/-- A file whose only stream is an audio stream carrying no fields at
all (in particular no `codec_name`). -/
def dAudioAbsent : ProbeData :=
  { streams := [{ codec_type := some "audio" }] }

/-- A file with a single fully compliant video stream
(h264 / yuv420p / bt709, no side data). -/
def dCompliant : ProbeData :=
  { streams := [{ codec_type := some "video", codec_name := some "h264",
                  pix_fmt := some "yuv420p", color_space := some "bt709" }] }

/-- A file whose first video stream is fully compliant and whose second
video stream uses HEVC. -/
def dSecondHevc : ProbeData :=
  { streams := [{ codec_type := some "video", codec_name := some "h264",
                  pix_fmt := some "yuv420p", color_space := some "bt709" },
                { codec_type := some "video", codec_name := some "hevc" }] }

/-- A video stream carrying neither width nor height (nor any other
optional field). -/
def dNoDimensions : ProbeData :=
  { streams := [{ codec_type := some "video" }] }

/-- A file whose video stream carries duration "10.0" while the
container-level format reports duration "99.5". -/
def dTwoDurations : ProbeData :=
  { streams := [{ codec_type := some "video", duration := some "10.0" }],
    format := { duration := some "99.5" } }

/-- Detection environment in which every probe succeeds on
`dCompliant`. -/
def envDetOK : DetectEnv :=
  { fileExists := true, hasFFprobe := true, pDetect := .ok dCompliant,
    pIdent1 := .ok dCompliant, pIdent2 := .ok dCompliant }

/-- Detection environment in which the detector's own probe and the
analyzer's first probe succeed, but the analyzer's `-show_data` probe
fails (nonzero exit). -/
def envSideProbeFail : DetectEnv :=
  { fileExists := true, hasFFprobe := true, pDetect := .ok dCompliant,
    pIdent1 := .ok dCompliant, pIdent2 := .fail }

/-- Detection environment in which the detector's own probe fails. -/
def envDetFail : DetectEnv :=
  { fileExists := true, hasFFprobe := true, pDetect := .fail,
    pIdent1 := .fail, pIdent2 := .fail }

/-- Detection environment whose probes deliver `dSecondHevc`. -/
def envSecondHevc : DetectEnv :=
  { fileExists := true, hasFFprobe := true, pDetect := .ok dSecondHevc,
    pIdent1 := .ok dSecondHevc, pIdent2 := .ok dSecondHevc }

/-- A flagged record (status 错误) with no fields set, as `fix_video`
receives it. -/
def infoFlagged : VideoInfo :=
  { filepath := "/videos/a.mp4", filesize := 100, status := .error }

/-- An already-compliant record (status 正常). -/
def infoOK : VideoInfo :=
  { filepath := "/videos/a.mp4", filesize := 100, status := .ok }

/-- Repair environment whose stage-1 decode exits with code 1
(ffprobe deliberately unavailable so the pre-stage probe returns
`None`). -/
def envStage1Fail : FixEnv :=
  { hasFFmpeg := true, hasFFprobe := false,
    tempName := "/videos/temp_fix_ab.mp4", rawName := "/videos/raw_temp_cd.yuv",
    needDir := false, mkdirOk := true, probeOrig := .fail,
    spawn1Ok := true, stage1Exit := 1, spawn2Ok := true, stage2Exit := 0,
    outExists := true, outSize := 10, rawRemoveOk := true,
    reverify1 := .fail, reverify2 := .fail,
    origExists := true, origRemoveOk := true, renameOk := true, moveOk := true,
    timeStr := "2025-01-01 00:00:00" }

/-- Repair environment for a fully successful replace-original run. -/
def envFixOK : FixEnv :=
  { hasFFmpeg := true, hasFFprobe := false,
    tempName := "/videos/temp_fix_ab.mp4", rawName := "/videos/raw_temp_cd.yuv",
    needDir := false, mkdirOk := true, probeOrig := .fail,
    spawn1Ok := true, stage1Exit := 0, spawn2Ok := true, stage2Exit := 0,
    outExists := true, outSize := 10, rawRemoveOk := true,
    reverify1 := .fail, reverify2 := .fail,
    origExists := true, origRemoveOk := true, renameOk := true, moveOk := true,
    timeStr := "2025-01-01 00:00:00" }

/-! ## Theorems -/

/-- A registered file on disk does not survive a `cleanup()` whose
removals succeed. -/
theorem cleanupLeavesFile_of_contains (temps : List String) (name : String)
    (d : Bool) (h : d = true → temps.contains name = true) :
    cleanupLeavesFile temps name d true = false := by
  cases d with
  | false => simp [cleanupLeavesFile]
  | true =>
      have hm : name ∈ temps := by simpa using h rfl
      simp [cleanupLeavesFile, hm]

/-- C7.  Frame-rate parsing: the rational string `30000/1001` is
converted to the two-decimal rounding 29.97; a zero denominator leaves
the frame rate unset, with `fpsFromRat` returning `none` for every
numerator without performing the division, and no exception is
raised (`parseFps` returns `.ok`). -/
theorem C7_framerate_parsing :
    parseFps "30000/1001" = .ok (some ((2997 : ℚ) / 100)) ∧
    parseFps "25/0" = .ok none ∧
    (∀ n : Int, fpsFromRat n 0 = none) := by
  refine ⟨?_, rfl, fun n => rfl⟩
  have h1 : parseFps "30000/1001" = .ok (some (round2 ((30000 : ℚ) / 1001))) := rfl
  have h2 : round2 ((30000 : ℚ) / 1001) = (2997 : ℚ) / 100 := by
    rw [round2, round_eq]; norm_num
  rw [h1, h2]

/-- C1.  When the file exists, ffprobe is available and the metadata
probe succeeds with a non-empty info dict, the verdict of `detect_video`
is `ok` exactly when both issue lists of
`_identify_problematic_streams` are empty, and `error` with the message
检测到兼容性问题 as soon as either list is non-empty; the record carries
the concatenated issues in both cases. -/
theorem C1_verdict_iff_empty_issues (env : DetectEnv) (path : String) (size : Nat)
    (m : MediaInfo) (hx : env.fileExists = true) (hp : env.hasFFprobe = true)
    (hg : get_video_info env.hasFFprobe env.pDetect = .ok (some m)) :
    (detect_video env path size).map (fun r => r.issues)
      = some ((identify_problematic_streams env.hasFFprobe env.pIdent1 env.pIdent2).video_issues
          ++ (identify_problematic_streams env.hasFFprobe env.pIdent1 env.pIdent2).audio_issues) ∧
    (detect_video env path size).map (fun r => (r.status, r.error_message))
      = some (if (identify_problematic_streams env.hasFFprobe env.pIdent1 env.pIdent2).video_issues = []
                 ∧ (identify_problematic_streams env.hasFFprobe env.pIdent1 env.pIdent2).audio_issues = []
              then (VStatus.ok, none)
              else (VStatus.error, some "检测到兼容性问题")) := by
  simp only [hp] at hg ⊢
  by_cases hv : (identify_problematic_streams true env.pIdent1 env.pIdent2).video_issues = []
      ∧ (identify_problematic_streams true env.pIdent1 env.pIdent2).audio_issues = []
  · have hcond : ¬ ((identify_problematic_streams true env.pIdent1 env.pIdent2).video_issues ≠ []
        ∨ (identify_problematic_streams true env.pIdent1 env.pIdent2).audio_issues ≠ []) := by
      simp [hv.1, hv.2]
    constructor <;> simp [detect_video, applyMedia, hx, hp, hg, hcond, hv]
  · have hcond : (identify_problematic_streams true env.pIdent1 env.pIdent2).video_issues ≠ []
        ∨ (identify_problematic_streams true env.pIdent1 env.pIdent2).audio_issues ≠ [] := by
      by_contra hc
      push_neg at hc
      exact hv ⟨hc.1, hc.2⟩
    constructor <;> simp [detect_video, applyMedia, hx, hp, hg, hcond, hv]

/-- C1 witness: on the concrete compliant file the issue lists are empty
and the verdict is `ok`. -/
theorem C1_witness :
    envDetOK.fileExists = true ∧ envDetOK.hasFFprobe = true ∧
    get_video_info envDetOK.hasFFprobe envDetOK.pDetect
      = .ok (some { width := some 0, height := some 0, codec := some "h264",
                    pixel_format := some "yuv420p", color_space := some "bt709" }) ∧
    ((detect_video envDetOK "/videos/a.mp4" 100).map (fun r => r.issues)
      = some ((identify_problematic_streams envDetOK.hasFFprobe envDetOK.pIdent1
            envDetOK.pIdent2).video_issues
          ++ (identify_problematic_streams envDetOK.hasFFprobe envDetOK.pIdent1
            envDetOK.pIdent2).audio_issues) ∧
    (detect_video envDetOK "/videos/a.mp4" 100).map (fun r => (r.status, r.error_message))
      = some (if (identify_problematic_streams envDetOK.hasFFprobe envDetOK.pIdent1
                envDetOK.pIdent2).video_issues = []
                 ∧ (identify_problematic_streams envDetOK.hasFFprobe envDetOK.pIdent1
                envDetOK.pIdent2).audio_issues = []
              then (VStatus.ok, none)
              else (VStatus.error, some "检测到兼容性问题"))) :=
  ⟨rfl, rfl, rfl,
    C1_verdict_iff_empty_issues envDetOK "/videos/a.mp4" 100
      { width := some 0, height := some 0, codec := some "h264",
        pixel_format := some "yuv420p", color_space := some "bt709" } rfl rfl rfl⟩

/-- A video stream with every optional field absent contributes no
video issue. -/
theorem streamVideoIssues_absent (s : Stream) (h : optionalFieldsAbsent s) :
    streamVideoIssues s = [] := by
  obtain ⟨h1, h2, h3, h4⟩ := h
  by_cases ht : s.codec_type = some "video"
  · unfold streamVideoIssues
    rw [if_pos ht, h1, h2, h3, h4]
    decide
  · unfold streamVideoIssues
    rw [if_neg ht]

/-- An audio stream with absent codec name contributes exactly the
empty-codec audio issue: the defaulted empty string is outside the
allow list. -/
theorem streamAudioIssues_absent (s : Stream) (ht : s.codec_type = some "audio")
    (h1 : s.codec_name = none) :
    streamAudioIssues s = ["音频使用  编码，可能不被MoviePy兼容"] := by
  unfold streamAudioIssues
  rw [if_pos ht, h1]
  decide

/-- A non-audio stream contributes no audio issue. -/
theorem streamAudioIssues_not_audio (s : Stream) (ht : ¬ s.codec_type = some "audio") :
    streamAudioIssues s = [] := by
  unfold streamAudioIssues
  rw [if_neg ht]

/-- Over a stream list with all optional fields absent, the video scan
collects nothing. -/
theorem flattenVideoIssues_absent (l : List Stream)
    (h : ∀ s ∈ l, optionalFieldsAbsent s) :
    (l.map streamVideoIssues).flatten = [] := by
  induction l with
  | nil => rfl
  | cons s t ih =>
      simp [streamVideoIssues_absent s (h s (List.mem_cons_self s t)),
            ih (fun x hx => h x (List.mem_cons_of_mem s hx))]

/-- Over a stream list with all optional fields absent, the audio scan
collects exactly one empty-codec issue per audio stream. -/
theorem flattenAudioIssues_absent (l : List Stream)
    (h : ∀ s ∈ l, optionalFieldsAbsent s) :
    (l.map streamAudioIssues).flatten
      = (l.filter (fun s => s.codec_type = some "audio")).map
          (fun _ => "音频使用  编码，可能不被MoviePy兼容") := by
  induction l with
  | nil => rfl
  | cons s t ih =>
      have hs := h s (List.mem_cons_self s t)
      have ht : ∀ x ∈ t, optionalFieldsAbsent x :=
        fun x hx => h x (List.mem_cons_of_mem s hx)
      by_cases ha : s.codec_type = some "audio"
      · simp [streamAudioIssues_absent s ha hs.1, ih ht, ha]
      · simp [streamAudioIssues_not_audio s ha, ih ht, ha]

/-- C2 counterexample: a stream set consisting of one audio stream with
every optional field absent (in particular no audio codec name) makes
the analyzer report an audio issue, so the claim "an absent field never
generates an issue, for video and audio streams alike" fails on the
audio side. -/
theorem C2_counterexample :
    (identify_problematic_streams true (.ok dAudioAbsent) (.ok dAudioAbsent)).audio_issues
      = ["音频使用  编码，可能不被MoviePy兼容"] ∧
    identify_problematic_streams true (.ok dAudioAbsent) (.ok dAudioAbsent) ≠ ({} : IssueList) := by
  constructor <;> decide

/-- C2 (amended).  For a stream set in which every stream has all
optional fields absent, the analyzer reports no video issue at all, but
each audio stream contributes one audio issue (its defaulted empty
codec name is outside the allow list).  The hypotheses pin the success
path: the analyzer's internal `_get_video_info` probe must deliver a
non-empty dict, and the `-show_data` probe delivers the streams. -/
theorem C2_absent_fields_amended (d : ProbeData) (p1 : ProbeExec) (m : MediaInfo)
    (h : ∀ s ∈ d.streams, optionalFieldsAbsent s)
    (hp1 : get_video_info true p1 = .ok (some m)) :
    (identify_problematic_streams true p1 (.ok d)).video_issues = [] ∧
    (identify_problematic_streams true p1 (.ok d)).audio_issues
      = (d.streams.filter (fun s => s.codec_type = some "audio")).map
          (fun _ => "音频使用  编码，可能不被MoviePy兼容") := by
  have hid : identify_problematic_streams true p1 (.ok d) = scanStreams d := by
    simp [identify_problematic_streams, hp1]
  rw [hid]
  unfold scanStreams
  exact ⟨flattenVideoIssues_absent d.streams h, flattenAudioIssues_absent d.streams h⟩

/-- C2 witness: the amended statement applied to the concrete all-absent
audio stream set. -/
theorem C2_witness :
    (∀ s ∈ dAudioAbsent.streams, optionalFieldsAbsent s) ∧
    get_video_info true (.ok dAudioAbsent) = .ok (some { audio_codec := none }) ∧
    ((identify_problematic_streams true (.ok dAudioAbsent) (.ok dAudioAbsent)).video_issues = [] ∧
     (identify_problematic_streams true (.ok dAudioAbsent) (.ok dAudioAbsent)).audio_issues
       = (dAudioAbsent.streams.filter (fun s => s.codec_type = some "audio")).map
           (fun _ => "音频使用  编码，可能不被MoviePy兼容")) :=
  ⟨by decide, rfl,
    C2_absent_fields_amended dAudioAbsent (.ok dAudioAbsent) { audio_codec := none }
      (by decide) rfl⟩

/-- C3 counterexample: when the detector's own metadata probe succeeds
on a compliant file but the analyzer's `-show_data` probe exits nonzero
(a probe failure), the record is reported compliant (`ok`), violating
"a probe failure is never reported as compliant"; moreover the analyzer
returns for a failing probe exactly the same empty `IssueList` it
returns for a fully compliant file — no probe-failure signal exists. -/
theorem C3_counterexample :
    envSideProbeFail.pIdent2 = ProbeExec.fail ∧
    (detect_video envSideProbeFail "/videos/a.mp4" 100).map (fun r => r.status)
      = some VStatus.ok ∧
    identify_problematic_streams true ProbeExec.fail ProbeExec.fail
      = identify_problematic_streams true (.ok dCompliant) (.ok dCompliant) := by
  refine ⟨rfl, by decide, by decide⟩

/-- C3 (amended).  The analyzer returns an empty `IssueList` with no
failure signal whenever its probe fails.  The detection workflow marks
a record whose own metadata probe fails as `error` with the
probe-failure message 检测失败 (distinguishable from the flagged verdict
检测到兼容性问题 only by message text and by the empty issue list) — but
only because `detect_video`'s own `_get_video_info` call raises; a
failure confined to the analyzer's internal probes leaves the verdict
`ok` (see the counterexample). -/
theorem C3_probe_failure_amended (env : DetectEnv) (path : String) (size : Nat)
    (hx : env.fileExists = true) (hp : env.hasFFprobe = true)
    (hf : env.pDetect = .fail) :
    (detect_video env path size).map (fun r => (r.status, r.error_message, r.issues))
      = some (VStatus.error, some "检测失败: 获取视频信息时出错: FFprobe执行失败", []) ∧
    (some "检测失败: 获取视频信息时出错: FFprobe执行失败" : Option String)
      ≠ some "检测到兼容性问题" ∧
    (∀ p2 : ProbeExec, identify_problematic_streams true ProbeExec.fail p2 = {}) := by
  refine ⟨?_, by decide, fun p2 => rfl⟩
  simp [detect_video, hx, hp, hf, get_video_info]

/-- C3 witness: the amended statement at the concrete failing probe. -/
theorem C3_witness :
    envDetFail.fileExists = true ∧ envDetFail.hasFFprobe = true ∧
    envDetFail.pDetect = ProbeExec.fail ∧
    ((detect_video envDetFail "/videos/a.mp4" 100).map
        (fun r => (r.status, r.error_message, r.issues))
      = some (VStatus.error, some "检测失败: 获取视频信息时出错: FFprobe执行失败", []) ∧
    (some "检测失败: 获取视频信息时出错: FFprobe执行失败" : Option String)
      ≠ some "检测到兼容性问题" ∧
    (∀ p2 : ProbeExec, identify_problematic_streams true ProbeExec.fail p2 = {})) :=
  ⟨rfl, rfl, rfl, C3_probe_failure_amended envDetFail "/videos/a.mp4" 100 rfl rfl rfl⟩

/-- C9.  The analyzer scans every stream: on the success path its result
is the per-stream concatenation over the whole stream list (not just
the first stream of each type); every audio stream whose lower-cased
codec name is outside the allow list contributes its issue; and on the
concrete file whose first video stream is compliant while the second
uses HEVC, the verdict is `error` although the descriptor's codec field
(taken from the first video stream only) is h264. -/
theorem C9_every_stream_scanned (p1 : ProbeExec) (d : ProbeData) (m : MediaInfo)
    (hp1 : get_video_info true p1 = .ok (some m)) :
    identify_problematic_streams true p1 (.ok d)
      = { video_issues := (d.streams.map streamVideoIssues).flatten,
          audio_issues := (d.streams.map streamAudioIssues).flatten } ∧
    (∀ s : Stream, s.codec_type = some "audio" →
        (["aac", "mp3", "pcm_s16le"].contains (lowerStr (s.codec_name.getD "")) = false) →
        streamAudioIssues s
          = ["音频使用 " ++ lowerStr (s.codec_name.getD "") ++ " 编码，可能不被MoviePy兼容"]) ∧
    (detect_video envSecondHevc "/videos/a.mp4" 100).map (fun r => (r.status, r.codec, r.issues))
      = some (VStatus.error, some "h264", ["视频使用 HEVC 编码，可能不被MoviePy兼容"]) := by
  refine ⟨?_, ?_, by decide⟩
  · simp [identify_problematic_streams, hp1, scanStreams]
  · intro s ht hc
    unfold streamAudioIssues
    rw [if_pos ht]
    simp only [hc]
    simp

/-- C9 witness: the statement applied with the two-video-stream probe
data. -/
theorem C9_witness :
    get_video_info true (.ok dSecondHevc)
      = .ok (some { width := some 0, height := some 0, codec := some "h264",
                    pixel_format := some "yuv420p", color_space := some "bt709" }) ∧
    identify_problematic_streams true (.ok dSecondHevc) (.ok dSecondHevc)
      = { video_issues := (dSecondHevc.streams.map streamVideoIssues).flatten,
          audio_issues := (dSecondHevc.streams.map streamAudioIssues).flatten } :=
  ⟨rfl,
    (C9_every_stream_scanned (.ok dSecondHevc) dSecondHevc
      { width := some 0, height := some 0, codec := some "h264",
        pixel_format := some "yuv420p", color_space := some "bt709" } rfl).1⟩

/-- C5 counterexample: a video stream carrying neither width nor height
yields a descriptor with width and height *set to 0*, not unset — the
prober materialises `int(stream.get("width", 0))`. -/
theorem C5_counterexample :
    dNoDimensions.streams = [{ codec_type := some "video" }] ∧
    extractMediaInfo dNoDimensions = .ok { width := some 0, height := some 0 } ∧
    ({ width := some 0, height := some 0 } : MediaInfo).width ≠ none ∧
    ({ width := some 0, height := some 0 } : MediaInfo).height ≠ none :=
  ⟨rfl, rfl, by decide, by decide⟩

/-- C5 (amended).  For a probe output whose first video stream exists,
every field except width and height behaves as the claim states: absent
codec name / pixel format / color space / frame rate / bitrates /
container duration stay unset on the descriptor.  Width and height,
however, are materialised as 0 when absent from the stream. -/
theorem C5_absent_fields_amended (d : ProbeData) (vs : Stream) (m : MediaInfo)
    (hv : firstStreamOfType d "video" = some vs)
    (hm : extractMediaInfo d = .ok m) :
    (vs.width = none → m.width = some 0) ∧
    (vs.height = none → m.height = some 0) ∧
    m.codec = vs.codec_name ∧
    m.pixel_format = vs.pix_fmt ∧
    m.color_space = vs.color_space ∧
    (vs.r_frame_rate = none → m.fps = none) ∧
    (vs.bit_rate = none → m.video_bitrate = none) ∧
    (d.format.duration = none → m.duration = none) ∧
    (∀ au : Stream, firstStreamOfType d "audio" = some au →
        m.audio_codec = au.codec_name ∧ (au.bit_rate = none → m.audio_bitrate = none)) := by
  rcases hfps : parseFps (vs.r_frame_rate.getD "") with e | fps?
  · simp only [extractMediaInfo, hv, hfps] at hm
    exact absurd hm (by simp)
  · rcases hau : firstStreamOfType d "audio" with _ | au
    · simp only [extractMediaInfo, hv, hfps, hau, Except.ok.injEq] at hm
      subst hm
      refine ⟨fun h => by simp [h], fun h => by simp [h], rfl, rfl, rfl, ?_, ?_, ?_, ?_⟩
      · intro h
        rw [h] at hfps
        have : fps? = none := by
          have h0 : parseFps ((none : Option String).getD "") = .ok none := rfl
          rw [h0] at hfps
          exact (Except.ok.injEq _ _ ▸ hfps).symm
        simp [this]
      · intro h
        simp [bitrateKbps, h]
      · intro h
        simp [h]
      · intro au habs
        cases habs
    · simp only [extractMediaInfo, hv, hfps, hau, Except.ok.injEq] at hm
      subst hm
      refine ⟨fun h => by simp [h], fun h => by simp [h], rfl, rfl, rfl, ?_, ?_, ?_, ?_⟩
      · intro h
        rw [h] at hfps
        have : fps? = none := by
          have h0 : parseFps ((none : Option String).getD "") = .ok none := rfl
          rw [h0] at hfps
          exact (Except.ok.injEq _ _ ▸ hfps).symm
        simp [this]
      · intro h
        simp [bitrateKbps, h]
      · intro h
        simp [h]
      · intro au2 hau2
        cases hau2
        exact ⟨rfl, fun h => by simp [bitrateKbps, h]⟩

/-- C5 witness: the amended statement at the dimensionless video
stream. -/
theorem C5_witness :
    firstStreamOfType dNoDimensions "video" = some { codec_type := some "video" } ∧
    extractMediaInfo dNoDimensions = .ok { width := some 0, height := some 0 } ∧
    (({ codec_type := some "video" } : Stream).width = none →
      ({ width := some 0, height := some 0 } : MediaInfo).width = some 0) :=
  ⟨rfl, rfl,
    (C5_absent_fields_amended dNoDimensions { codec_type := some "video" }
      { width := some 0, height := some 0 } rfl rfl).1⟩

/-- C6 counterexample: the prober ignores the video stream's duration
entirely.  On a file whose stream says 10.0 seconds while the container
says 99.5, the descriptor reports 99.5 — not the stream-first value the
claim describes. -/
theorem C6_counterexample :
    (dTwoDurations.streams.map (fun s => s.duration)) = [some "10.0"] ∧
    parseFloat? "10.0" = some (partsToRat (false, 10, 0, 1)) ∧
    extractMediaInfo dTwoDurations
      = .ok { width := some 0, height := some 0,
              duration := some (partsToRat (false, 99, 5, 1)) } ∧
    partsToRat (false, 99, 5, 1) ≠ partsToRat (false, 10, 0, 1) :=
  ⟨rfl, rfl, rfl, by norm_num [partsToRat]⟩

/-- C6 (amended).  The prober (`_get_video_info`) derives duration from
the container-level format object only, never from the video stream.
The stream-first/container-fallback derivation lives in the converter
helpers (`create_preview` / `extract_frame`): there the stream-level
value wins when non-zero, and only otherwise is the container duration
consulted. -/
theorem C6_duration_amended :
    (∀ (d : ProbeData) (m : MediaInfo), extractMediaInfo d = .ok m →
        m.duration = d.format.duration.bind parseFloat?) ∧
    (∀ d : ProbeData, preview_stream_duration d ≠ 0 →
        preview_duration d = preview_stream_duration d) ∧
    (∀ d : ProbeData, preview_stream_duration d = 0 →
        preview_duration d = (d.format.duration.bind parseFloat?).getD 0) := by
  refine ⟨?_, ?_, ?_⟩
  · intro d m hm
    rcases hv : firstStreamOfType d "video" with _ | vs
    · rcases hau : firstStreamOfType d "audio" with _ | au <;>
        simp only [extractMediaInfo, hv, hau, Except.ok.injEq] at hm <;> subst hm <;> rfl
    · rcases hfps : parseFps (vs.r_frame_rate.getD "") with e | fps?
      · simp only [extractMediaInfo, hv, hfps] at hm
        exact absurd hm (by simp)
      · rcases hau : firstStreamOfType d "audio" with _ | au <;>
          simp only [extractMediaInfo, hv, hfps, hau, Except.ok.injEq] at hm <;>
            subst hm <;> rfl
  · intro d hne
    simp only [preview_duration]
    rw [if_neg hne]
  · intro d h0
    simp only [preview_duration]
    rw [if_pos h0]
    rcases hfd : d.format.duration with _ | s <;> simp [hfd]

/-- C6 witness: the converter derivation at the concrete two-duration
file uses the stream value. -/
theorem C6_witness :
    preview_stream_duration dTwoDurations ≠ 0 ∧
    preview_duration dTwoDurations = preview_stream_duration dTwoDurations := by
  have h : preview_stream_duration dTwoDurations = partsToRat (false, 10, 0, 1) := rfl
  have hne : preview_stream_duration dTwoDurations ≠ 0 := by
    rw [h]
    norm_num [partsToRat]
  exact ⟨hne, C6_duration_amended.2.1 dTwoDurations hne⟩

/-- C10.  Calling `fix_video` on a record whose status is `ok` (with
ffmpeg available, otherwise the tool check fires first) returns success
with the already-compatible message and a result whose every effect
flag is at its default: no probe, no temp file, no subprocess, no
replace, record and registry unchanged. -/
theorem C10_ok_record_noop (env : FixEnv) (temps0 : List String) (info : VideoInfo)
    (out? : Option String) (q : String)
    (hff : env.hasFFmpeg = true) (hok : info.status = VStatus.ok) :
    fix_video env temps0 info out? q =
      { outcome := .returned true "视频已兼容，无需修复", record := info, temps := temps0 } := by
  simp [fix_video, hff, hok]

/-- C10 witness: the concrete compliant record is returned untouched. -/
theorem C10_witness :
    envFixOK.hasFFmpeg = true ∧ infoOK.status = VStatus.ok ∧
    fix_video envFixOK [] infoOK none "medium" =
      { outcome := .returned true "视频已兼容，无需修复", record := infoOK, temps := [] } :=
  ⟨rfl, rfl, C10_ok_record_noop envFixOK [] infoOK none "medium" rfl rfl⟩

/-- C4.  When the stage-1 decode exits nonzero (and the call reaches
stage 1: ffmpeg present, record not `ok`, output dir available, probe
did not raise, the process spawned), `fix_video` returns failure with
the stage-1 message; stage 2 never runs, the replace block is never
entered, the original is neither deleted nor renamed nor overwritten,
and the record — including `fixed_path`/`fixed_time`/
`conversion_params` and the status — is returned unchanged. -/
theorem C4_stage1_failure (env : FixEnv) (temps0 : List String) (info : VideoInfo)
    (out? : Option String) (q : String) (m? : Option MediaInfo)
    (hff : env.hasFFmpeg = true) (hnok : ¬ info.status = VStatus.ok)
    (hdir : ¬ (env.needDir ∧ env.mkdirOk = false))
    (hprobe : get_video_info env.hasFFprobe env.probeOrig = .ok m?)
    (hspawn : env.spawn1Ok = true) (hexit : env.stage1Exit ≠ 0) :
    (fix_video env temps0 info out? q).outcome
        = .returned false ("阶段1解码失败，返回代码: " ++ toString env.stage1Exit) ∧
    (fix_video env temps0 info out? q).record = info ∧
    (fix_video env temps0 info out? q).stage2Run = false ∧
    (fix_video env temps0 info out? q).replaceAttempted = false ∧
    (fix_video env temps0 info out? q).originalDeleted = false ∧
    (fix_video env temps0 info out? q).originalRenamed = false ∧
    (fix_video env temps0 info out? q).movedIntoPlace = false := by
  refine ⟨?_, ?_, ?_, ?_, ?_, ?_, ?_⟩ <;>
    simp [fix_video, hff, hnok, hdir, hprobe, hspawn, hexit]

/-- C4 witness: the stage-1 failure environment leaves the concrete
flagged record untouched. -/
theorem C4_witness :
    envStage1Fail.hasFFmpeg = true ∧ ¬ infoFlagged.status = VStatus.ok ∧
    envStage1Fail.stage1Exit ≠ 0 ∧
    ((fix_video envStage1Fail [] infoFlagged none "high").outcome
        = .returned false ("阶段1解码失败，返回代码: " ++ toString envStage1Fail.stage1Exit) ∧
    (fix_video envStage1Fail [] infoFlagged none "high").record = infoFlagged ∧
    (fix_video envStage1Fail [] infoFlagged none "high").stage2Run = false ∧
    (fix_video envStage1Fail [] infoFlagged none "high").replaceAttempted = false ∧
    (fix_video envStage1Fail [] infoFlagged none "high").originalDeleted = false ∧
    (fix_video envStage1Fail [] infoFlagged none "high").originalRenamed = false ∧
    (fix_video envStage1Fail [] infoFlagged none "high").movedIntoPlace = false) :=
  ⟨rfl, by decide, by decide,
    C4_stage1_failure envStage1Fail [] infoFlagged none "high" none rfl (by decide)
      (by decide) rfl rfl (by decide)⟩

/-- If the raw-cleanup step reports the raw file still on disk, the
registry passed in is returned unchanged (the file was on disk and its
removal failed). -/
theorem rawCleanup_fst (env : FixEnv) (rd : Bool) (temps : List String)
    (h : (rawCleanup env rd temps).1 = true) :
    rd = true ∧ (rawCleanup env rd temps).2 = temps := by
  unfold rawCleanup at h ⊢
  by_cases h1 : rd = true <;> by_cases h2 : env.rawRemoveOk = true <;> simp_all

/-- The raw-cleanup step removes at most the raw name from the
registry. -/
theorem rawCleanup_mem (env : FixEnv) (rd : Bool) (temps : List String)
    (x : String) (hx : x ∈ temps) (hne : x ≠ env.rawName) :
    x ∈ (rawCleanup env rd temps).2 := by
  unfold rawCleanup
  by_cases h1 : rd = true <;> by_cases h2 : env.rawRemoveOk = true <;>
    simp [h1, h2, hx, (List.mem_erase_of_ne hne).mpr hx]

theorem rawCleanup_raw_mem (env : FixEnv) (rd : Bool) (temps : List String)
    (hmem : env.rawName ∈ temps) :
    (rawCleanup env rd temps).1 = true → env.rawName ∈ (rawCleanup env rd temps).2 := by
  intro h
  obtain ⟨-, heq⟩ := rawCleanup_fst env rd temps h
  rw [heq]
  exact hmem

theorem C8key (env : FixEnv) (temps0 : List String) (info : VideoInfo)
    (out? : Option String) (q : String) (hnames : env.rawName ≠ env.tempName) :
    ((fix_video env temps0 info out? q).rawOnDisk = true →
      env.rawName ∈ (fix_video env temps0 info out? q).temps) ∧
    ((fix_video env temps0 info out? q).tempOutCreated = true →
      (fix_video env temps0 info out? q).tempOutOnDisk = true →
      env.tempName ∈ (fix_video env temps0 info out? q).temps) := by
  have hnames2 : env.tempName ≠ env.rawName := Ne.symm hnames
  by_cases hff : env.hasFFmpeg = false
  · simp [fix_video, hff]
  by_cases hok : info.status = VStatus.ok
  · simp [fix_video, hff, hok]
  by_cases hdir : env.needDir ∧ env.mkdirOk = false
  · rcases out? with _ | p <;> simp [fix_video, hff, hok, hdir]
  rcases hg : get_video_info env.hasFFprobe env.probeOrig with e | m?
  · rcases out? with _ | p <;> simp [fix_video, hff, hok, hdir, hg]
  rcases out? with _ | p
  · -- output_path = None: replace-original mode, temp output created
    by_cases hs1 : env.spawn1Ok = false
    · constructor
      · simp [fix_video, hff, hok, hdir, hg, hs1]
        exact fun h => by simpa using rawCleanup_raw_mem env true _ (by simp) h
      · simp [fix_video, hff, hok, hdir, hg, hs1]
        exact by simpa using rawCleanup_mem env true _ env.tempName (by simp) hnames2
    by_cases he1 : env.stage1Exit ≠ 0
    · constructor
      · simp [fix_video, hff, hok, hdir, hg, hs1, he1]
        exact fun h => by simpa using rawCleanup_raw_mem env true _ (by simp) h
      · simp [fix_video, hff, hok, hdir, hg, hs1, he1]
        exact by simpa using rawCleanup_mem env true _ env.tempName (by simp) hnames2
    by_cases hs2 : env.spawn2Ok = false
    · constructor
      · simp [fix_video, hff, hok, hdir, hg, hs1, he1, hs2]
        exact fun h => by simpa using rawCleanup_raw_mem env true _ (by simp) h
      · simp [fix_video, hff, hok, hdir, hg, hs1, he1, hs2]
        exact by simpa using rawCleanup_mem env true _ env.tempName (by simp) hnames2
    by_cases he2 : env.stage2Exit ≠ 0
    · constructor
      · simp [fix_video, hff, hok, hdir, hg, hs1, he1, hs2, he2]
        exact fun h => by simpa using rawCleanup_raw_mem env true _ (by simp) h
      · simp [fix_video, hff, hok, hdir, hg, hs1, he1, hs2, he2]
        exact fun _ => by simpa using rawCleanup_mem env true _ env.tempName (by simp) hnames2
    by_cases hout : env.outExists = false ∨ env.outSize = 0
    · constructor
      · simp [fix_video, hff, hok, hdir, hg, hs1, he1, hs2, he2, hout]
        exact fun h => by simpa using rawCleanup_raw_mem env true _ (by simp) h
      · simp [fix_video, hff, hok, hdir, hg, hs1, he1, hs2, he2, hout]
        exact fun _ => by simpa using rawCleanup_mem env true _ env.tempName (by simp) hnames2
    by_cases hneq : env.tempName ≠ info.filepath
    · by_cases hrep : env.origExists ∧ env.origRemoveOk = false ∧ env.renameOk = false
      · constructor
        · simp [fix_video, hff, hok, hdir, hg, hs1, he1, hs2, he2, hout, hneq, hrep]
          intro h
          obtain ⟨hrd, heq⟩ := rawCleanup_fst _ _ _ h
          rw [heq]
          obtain ⟨-, heq2⟩ := rawCleanup_fst _ _ _ hrd
          rw [heq2]
          simp
        · simp [fix_video, hff, hok, hdir, hg, hs1, he1, hs2, he2, hout, hneq, hrep]
          exact by
            simpa using rawCleanup_mem env _ _ env.tempName
              (rawCleanup_mem env true _ env.tempName (by simp) hnames2) hnames2
      by_cases hmv : env.moveOk = false
      · constructor
        · simp [fix_video, hff, hok, hdir, hg, hs1, he1, hs2, he2, hout, hneq, hrep, hmv]
          intro h
          obtain ⟨hrd, heq⟩ := rawCleanup_fst _ _ _ h
          rw [heq]
          obtain ⟨-, heq2⟩ := rawCleanup_fst _ _ _ hrd
          rw [heq2]
          simp
        · simp [fix_video, hff, hok, hdir, hg, hs1, he1, hs2, he2, hout, hneq, hrep, hmv]
          exact by
            simpa using rawCleanup_mem env _ _ env.tempName
              (rawCleanup_mem env true _ env.tempName (by simp) hnames2) hnames2
      · constructor
        · simp [fix_video, hff, hok, hdir, hg, hs1, he1, hs2, he2, hout, hneq, hrep, hmv]
          intro h
          obtain ⟨hrd, heq⟩ := rawCleanup_fst _ _ _ h
          rw [heq]
          obtain ⟨-, heq2⟩ := rawCleanup_fst _ _ _ hrd
          rw [heq2]
          exact (List.mem_erase_of_ne hnames).mpr (by simp)
        · simp [fix_video, hff, hok, hdir, hg, hs1, he1, hs2, he2, hout, hneq, hrep, hmv]
    · constructor
      · simp [fix_video, hff, hok, hdir, hg, hs1, he1, hs2, he2, hout, hneq]
        intro h
        obtain ⟨hrd, heq⟩ := rawCleanup_fst _ _ _ h
        rw [heq]
        obtain ⟨-, heq2⟩ := rawCleanup_fst _ _ _ hrd
        rw [heq2]
        simp
      · simp [fix_video, hff, hok, hdir, hg, hs1, he1, hs2, he2, hout, hneq]
        exact by
          simpa using rawCleanup_mem env _ _ env.tempName
            (rawCleanup_mem env true _ env.tempName (by simp) hnames2) hnames2
  · -- explicit output path: no temp output is created
    by_cases hs1 : env.spawn1Ok = false
    · constructor
      · simp [fix_video, hff, hok, hdir, hg, hs1]
        exact fun h => by simpa using rawCleanup_raw_mem env true _ (by simp) h
      · simp [fix_video, hff, hok, hdir, hg, hs1]
    by_cases he1 : env.stage1Exit ≠ 0
    · constructor
      · simp [fix_video, hff, hok, hdir, hg, hs1, he1]
        exact fun h => by simpa using rawCleanup_raw_mem env true _ (by simp) h
      · simp [fix_video, hff, hok, hdir, hg, hs1, he1]
    by_cases hs2 : env.spawn2Ok = false
    · constructor
      · simp [fix_video, hff, hok, hdir, hg, hs1, he1, hs2]
        exact fun h => by simpa using rawCleanup_raw_mem env true _ (by simp) h
      · simp [fix_video, hff, hok, hdir, hg, hs1, he1, hs2]
    by_cases he2 : env.stage2Exit ≠ 0
    · constructor
      · simp [fix_video, hff, hok, hdir, hg, hs1, he1, hs2, he2]
        exact fun h => by simpa using rawCleanup_raw_mem env true _ (by simp) h
      · simp [fix_video, hff, hok, hdir, hg, hs1, he1, hs2, he2]
    by_cases hout : env.outExists = false ∨ env.outSize = 0
    · constructor
      · simp [fix_video, hff, hok, hdir, hg, hs1, he1, hs2, he2, hout]
        exact fun h => by simpa using rawCleanup_raw_mem env true _ (by simp) h
      · simp [fix_video, hff, hok, hdir, hg, hs1, he1, hs2, he2, hout]
    · constructor
      · simp [fix_video, hff, hok, hdir, hg, hs1, he1, hs2, he2, hout]
        intro h
        obtain ⟨hrd, heq⟩ := rawCleanup_fst _ _ _ h
        rw [heq]
        obtain ⟨-, heq2⟩ := rawCleanup_fst _ _ _ hrd
        rw [heq2]
        simp
      · simp [fix_video, hff, hok, hdir, hg, hs1, he1, hs2, he2, hout]

/-- C8.  On every exit path of `fix_video` — tool missing, already-ok
early return, mkdir failure, probe exception, spawn failure, stage-1
failure, stage-2 failure, empty output, replace failure, success — a
raw intermediate still on disk is registered in the instance-scoped
`_temp_files` registry, and the mkstemp temp output (when one was
created) is registered whenever it is still on disk; consequently a
subsequent `cleanup()` whose removals succeed leaves neither temporary
file behind and empties the registry.  (The two mkstemp names denote
distinct files.) -/
theorem C8_temp_registry_cleanup (env : FixEnv) (temps0 : List String) (info : VideoInfo)
    (out? : Option String) (q : String)
    (hnames : env.rawName ≠ env.tempName) :
    ((fix_video env temps0 info out? q).rawOnDisk = true →
        env.rawName ∈ (fix_video env temps0 info out? q).temps) ∧
    ((fix_video env temps0 info out? q).tempOutCreated = true →
        (fix_video env temps0 info out? q).tempOutOnDisk = true →
        env.tempName ∈ (fix_video env temps0 info out? q).temps) ∧
    cleanupLeavesFile (fix_video env temps0 info out? q).temps env.rawName
        (fix_video env temps0 info out? q).rawOnDisk true = false ∧
    cleanupLeavesFile (fix_video env temps0 info out? q).temps env.tempName
        ((fix_video env temps0 info out? q).tempOutCreated
          && (fix_video env temps0 info out? q).tempOutOnDisk) true = false ∧
    cleanup_registry (fix_video env temps0 info out? q).temps = [] := by
  obtain ⟨k1, k2⟩ := C8key env temps0 info out? q hnames
  refine ⟨k1, k2, ?_, ?_, rfl⟩
  · apply cleanupLeavesFile_of_contains
    intro h
    simpa using k1 h
  · apply cleanupLeavesFile_of_contains
    intro h
    rw [Bool.and_eq_true] at h
    simpa using k2 h.1 h.2

/-- C8 witness: the guarantee instantiated at a concrete repair of the
flagged record in replace-original mode. -/
theorem C8_witness :
    envFixOK.rawName ≠ envFixOK.tempName ∧
    (((fix_video envFixOK [] infoFlagged none "medium").rawOnDisk = true →
        envFixOK.rawName ∈ (fix_video envFixOK [] infoFlagged none "medium").temps) ∧
    ((fix_video envFixOK [] infoFlagged none "medium").tempOutCreated = true →
        (fix_video envFixOK [] infoFlagged none "medium").tempOutOnDisk = true →
        envFixOK.tempName ∈ (fix_video envFixOK [] infoFlagged none "medium").temps) ∧
    cleanupLeavesFile (fix_video envFixOK [] infoFlagged none "medium").temps envFixOK.rawName
        (fix_video envFixOK [] infoFlagged none "medium").rawOnDisk true = false ∧
    cleanupLeavesFile (fix_video envFixOK [] infoFlagged none "medium").temps envFixOK.tempName
        ((fix_video envFixOK [] infoFlagged none "medium").tempOutCreated
          && (fix_video envFixOK [] infoFlagged none "medium").tempOutOnDisk) true = false ∧
    cleanup_registry (fix_video envFixOK [] infoFlagged none "medium").temps = []) :=
  ⟨by decide, C8_temp_registry_cleanup envFixOK [] infoFlagged none "medium" (by decide)⟩

end VD
